import Mathlib

/-!
Shallow embedding of the ocsql OpenCensus SQL driver wrapper
(opencensus-integrations/ocsql) and proofs about its specification.

The repository wraps a Go `database/sql/driver` implementation with tracing
decorators.  The embedding below translates, from the source:

* the `TraceOptions` configuration and the `Wrap` normalisation step;
* the status mapper `setSpanStatus` (a total function from error values to a
  span status);
* the attribute encoder `argToAttr` / `paramsAttr` / `namedParamsAttr`;
* the capability shape produced by each tier decorator (`wrapStmt` for the
  statement tier; the fixed method sets of `ocConn` and `ocRows`);
* the per-call span policy and forwarding behaviour of each intercepted
  method (span started or not, result wrapped or returned raw, error
  propagated), as an outcome record per method;
* the legacy transaction tier of `driver.go` (long-lived `sql:transaction`
  span, `ocTx` construction, `Commit` / `Rollback`).

Go errors are modelled as an inductive type with one constructor per sentinel
value compared against in the source, plus `other` for everything else.
Go machine strings used as attribute payloads are modelled as byte lists,
because Go `len` and slicing on strings operate on bytes.
-/

/-- Span status codes of the OpenCensus trace library used by the source
(`trace.StatusCodeOK` and friends). -/
inductive StatusCode where
  | OK
  | Cancelled
  | Unknown
  | InvalidArgument
  | DeadlineExceeded
  | NotFound
  | AlreadyExists
  | PermissionDenied
  | ResourceExhausted
  | FailedPrecondition
  | Aborted
  | OutOfRange
  | Unimplemented
  | Internal
  | Unavailable
  | DataLoss
  | Unauthenticated
deriving DecidableEq, Repr

/-- Model of `trace.Status`: a code plus a message. -/
structure SpanStatus where
  code : StatusCode
  message : String
deriving DecidableEq, Repr

/-- Go error values the source compares against, one constructor per sentinel
(`context.Canceled`, `context.DeadlineExceeded`, `sql.ErrNoRows`,
`sql.ErrTxDone`, `sql.ErrConnDone`, `io.EOF`, `driver.ErrSkip`), plus `other`
for any remaining non-nil error carrying its message.  A nil Go error is
`Option.none` at use sites. -/
inductive GoError where
  | contextCanceled
  | contextDeadlineExceeded
  | sqlErrNoRows
  | sqlErrTxDone
  | sqlErrConnDone
  | ioEOF
  | driverErrSkip
  | other (msg : String)
deriving DecidableEq, Repr

/-- Message produced by the `Error()` method of each modelled Go error value,
matching the standard library texts. -/
def GoError.errorMsg : GoError → String
  | .contextCanceled => "context canceled"
  | .contextDeadlineExceeded => "context deadline exceeded"
  | .sqlErrNoRows => "sql: no rows in result set"
  | .sqlErrTxDone => "sql: transaction has already been committed or rolled back"
  | .sqlErrConnDone => "sql: connection is already closed"
  | .ioEOF => "EOF"
  | .driverErrSkip => "driver: skip fast-path; continue as if unimplemented"
  | .other msg => msg

/-- Translation of `setSpanStatus` (options.go): a switch on the error value.
A nil error returns status OK with no message; otherwise the code is chosen by
sentinel identity with `Unknown` as the default, and the message is the
error message. -/
def setSpanStatus : Option GoError → SpanStatus
  | none => { code := .OK, message := "" }
  | some err =>
    let code : StatusCode :=
      match err with
      | .contextCanceled => .Cancelled
      | .contextDeadlineExceeded => .DeadlineExceeded
      | .sqlErrNoRows => .NotFound
      | .sqlErrTxDone => .FailedPrecondition
      | .sqlErrConnDone => .FailedPrecondition
      | _ => .Unknown
    { code := code, message := err.errorMsg }

/-- Translation of the `TraceOptions` struct (options.go). -/
structure TraceOptions where
  AllowRoot : Bool
  Transaction : Bool
  Ping : Bool
  RowsNext : Bool
  RowsClose : Bool
  RowsAffected : Bool
  LastInsertID : Bool
  Query : Bool
  QueryParams : Bool
deriving DecidableEq, Repr

/-- Zero value of the Go `TraceOptions` struct: every field false. -/
def zeroTraceOptions : TraceOptions :=
  { AllowRoot := false, Transaction := false, Ping := false, RowsNext := false
  , RowsClose := false, RowsAffected := false, LastInsertID := false
  , Query := false, QueryParams := false }

/-- Translation of the `TraceAll` value (options.go): all options enabled. -/
def TraceAll : TraceOptions :=
  { AllowRoot := true, Transaction := true, Ping := true, RowsNext := true
  , RowsClose := true, RowsAffected := true, LastInsertID := true
  , Query := true, QueryParams := true }

/-- Functional option type `TraceOption` (options.go); the Go version mutates
a `TraceOptions` through a pointer, modelled as a function on the record. -/
def TraceOption : Type := TraceOptions → TraceOptions

/-- Translation of `WithOptions`. -/
def WithOptions (options : TraceOptions) : TraceOption := fun _ => options

/-- Translation of `WithAllowRoot`. -/
def WithAllowRoot (b : Bool) : TraceOption := fun o => { o with AllowRoot := b }

/-- Translation of `WithTransaction`. -/
def WithTransaction (b : Bool) : TraceOption := fun o => { o with Transaction := b }

/-- Translation of `WithPing`. -/
def WithPing (b : Bool) : TraceOption := fun o => { o with Ping := b }

/-- Translation of `WithQuery`. -/
def WithQuery (b : Bool) : TraceOption := fun o => { o with Query := b }

/-- Translation of `WithQueryParams`. -/
def WithQueryParams (b : Bool) : TraceOption := fun o => { o with QueryParams := b }

/-- Model of the `ocDriver` struct: the wrapped driver keeps the effective
trace options (the parent driver handle itself carries no further data the
claims need). -/
structure OcDriver where
  options : TraceOptions
deriving DecidableEq, Repr

/-- Translation of `Wrap` (options.go / driver.go): start from the zero
options, apply each functional option in order, then force `QueryParams` off
when `Query` is disabled, and store the result in the wrapped driver. -/
def Wrap (options : List TraceOption) : OcDriver :=
  let o := options.foldl (fun acc option => option acc) zeroTraceOptions
  let o := if o.QueryParams && !o.Query then { o with QueryParams := false } else o
  { options := o }

/-! ## Attribute encoder -/

/-- Go byte slices and Go strings used as attribute payloads, as byte lists
(Go `len` and slicing on strings are byte based). -/
abbrev GoBytes := List UInt8

/-- Model of a `driver.Value` as switched on by `argToAttr` (options.go):
nil, `int64`, `float64`, `bool`, `[]byte`, and the default case.  The
`float64` constructor carries the `fmt.Sprintf` percent-f rendering of the
number as data, and `other` carries the default percent-v rendering, since
the claims concern the attribute kind, keying and truncation, not the Go
formatting routine itself. -/
inductive Value where
  | null
  | int64 (i : Int)
  | float64 (formatted : GoBytes)
  | boolean (b : Bool)
  | bytes (v : GoBytes)
  | other (s : GoBytes)
deriving DecidableEq, Repr

/-- Typed payload of a trace attribute (`trace.StringAttribute`,
`trace.Int64Attribute`, `trace.BoolAttribute`). -/
inductive AttrValue where
  | strVal (s : GoBytes)
  | intVal (i : Int)
  | boolVal (b : Bool)
deriving DecidableEq, Repr

/-- Model of a `trace.Attribute`: a key and a typed payload. -/
structure Attribute where
  key : String
  value : AttrValue
deriving DecidableEq, Repr

/-- Translation of `argToAttr` (options.go): type switch on the value, with
byte slices and default renderings truncated to their first 256 bytes. -/
def argToAttr (key : String) (val : Value) : Attribute :=
  match val with
  | .null => { key := key, value := .strVal [] }
  | .int64 i => { key := key, value := .intVal i }
  | .float64 s => { key := key, value := .strVal s }
  | .boolean b => { key := key, value := .boolVal b }
  | .bytes v =>
    let v := if v.length > 256 then v.take 256 else v
    { key := key, value := .strVal v }
  | .other s =>
    let s := if s.length > 256 then s.take 256 else s
    { key := key, value := .strVal s }

/-- Translation of `paramsAttr` (options.go): one attribute per positional
argument, keyed by ordinal position. -/
def paramsAttr (args : List Value) : List Attribute :=
  args.enum.map (fun p => argToAttr ("sql.arg" ++ toString p.1) p.2)

/-- Model of `driver.NamedValue`: an optional name, a one-based ordinal and
a value. -/
structure NamedValue where
  Name : String
  Ordinal : Int
  value : Value
deriving DecidableEq, Repr

/-- Translation of `namedParamsAttr` (options.go): one attribute per
parameter, keyed by the name when present and by the ordinal otherwise. -/
def namedParamsAttr (args : List NamedValue) : List Attribute :=
  args.map (fun arg =>
    let key := if arg.Name ≠ "" then arg.Name else "sql.arg." ++ toString arg.Ordinal
    argToAttr key arg.value)

/-! ## Capability model

Go interface satisfaction is a static fact about a method set.  For each
tier the record below lists the optional extension interfaces of
`database/sql/driver` relevant to that tier, and each decorator is mapped to
the capability set its source method set gives it. -/

/-- Capability set at the statement tier: the base `driver.Stmt` contract and
the two optional context-aware extensions `driver.StmtExecContext` and
`driver.StmtQueryContext` probed by `wrapStmt`. -/
structure StmtCaps where
  stmtBase : Bool
  stmtExecContext : Bool
  stmtQueryContext : Bool
deriving DecidableEq, Repr

/-- Translation of `wrapStmt` (options.go): probe the parent statement for
`StmtExecContext` and `StmtQueryContext` membership and return, from the
fixed enumeration of the four composite types, the one whose interface list
matches the probe results; every composite embeds `driver.Stmt`. -/
def wrapStmt (hasExeCtx hasQryCtx : Bool) : StmtCaps :=
  if !hasExeCtx && !hasQryCtx then
    { stmtBase := true, stmtExecContext := false, stmtQueryContext := false }
  else if !hasExeCtx && hasQryCtx then
    { stmtBase := true, stmtExecContext := false, stmtQueryContext := true }
  else if hasExeCtx && !hasQryCtx then
    { stmtBase := true, stmtExecContext := true, stmtQueryContext := false }
  else
    { stmtBase := true, stmtExecContext := true, stmtQueryContext := true }

/-- Capability set at the connection tier: the optional extension interfaces
of `driver.Conn` used by `database/sql` capability probing. -/
structure ConnCaps where
  pinger : Bool
  execer : Bool
  execerContext : Bool
  queryer : Bool
  queryerContext : Bool
  connPrepareContext : Bool
  connBeginTx : Bool
  sessionResetter : Bool
deriving DecidableEq, Repr

/-- Connection capability set with no optional interface implemented. -/
def emptyConnCaps : ConnCaps :=
  { pinger := false, execer := false, execerContext := false, queryer := false
  , queryerContext := false, connPrepareContext := false, connBeginTx := false
  , sessionResetter := false }

/-- Capability set of the `ocConn` decorator (options.go), read off its method
set: it declares `Ping`, `Exec`, `ExecContext`, `Query`, `QueryContext`,
`PrepareContext` and `BeginTx` unconditionally, so it satisfies the
corresponding optional interfaces for every parent, and it declares no
`ResetSession`, so it never satisfies `driver.SessionResetter`.  The parent
capability set does not influence the method set. -/
def ocConnCaps (_parent : ConnCaps) : ConnCaps :=
  { pinger := true, execer := true, execerContext := true, queryer := true
  , queryerContext := true, connPrepareContext := true, connBeginTx := true
  , sessionResetter := false }

/-- Capability set at the rows tier: optional extension interfaces of
`driver.Rows`. -/
structure RowsCaps where
  columnTypeScanType : Bool
  columnTypeDatabaseTypeName : Bool
  nextResultSet : Bool
deriving DecidableEq, Repr

/-- Capability set of the `ocRows` decorator (options.go), read off its method
set: it declares only `Columns`, `Close` and `Next`, so it satisfies none of
the optional rows interfaces whatever the parent implements. -/
def ocRowsCaps (_parent : RowsCaps) : RowsCaps :=
  { columnTypeScanType := false, columnTypeDatabaseTypeName := false
  , nextResultSet := false }

/-! ## Per-call span policy and forwarding

Each intercepted method of the current snapshot (the `AllowRoot` aware code
in options.go) is modelled as a function from the trace options, the
capability probe results, the presence of a parent span in the inbound
context, and the parent call result, to an outcome record: whether a span was
started, the status recorded on it, the value returned (parent value raw, or
wrapped in a decorator), and the error returned to the caller. -/

/-- Whether the object returned to the caller is the parent object itself or
a decorated wrapper. -/
inductive RetObj where
  | raw
  | wrapped
deriving DecidableEq, Repr

/-- Outcome of one intercepted call that returns an object. -/
structure OpOutcome where
  spanStarted : Bool
  spanStatus : Option SpanStatus
  ret : Option RetObj
  err : Option GoError
deriving DecidableEq, Repr

/-- Outcome of one intercepted call that returns only an error (or a scalar
together with an error). -/
structure IterOutcome where
  spanStarted : Bool
  spanStatus : Option SpanStatus
  err : Option GoError
deriving DecidableEq, Repr

/-- Outcome of `ocConn.Ping`, which also records whether the parent was
invoked at all. -/
structure PingOutcome where
  spanStarted : Bool
  spanStatus : Option SpanStatus
  parentCalled : Bool
  err : Option GoError
deriving DecidableEq, Repr

/-- Status written by the `Ping` defer (options.go): `Unavailable` with the
error message on failure, OK otherwise.  `Ping` does not go through
`setSpanStatus`. -/
def pingSpanStatus (err : Option GoError) : SpanStatus :=
  match err with
  | some e => { code := .Unavailable, message := e.errorMsg }
  | none => { code := .OK, message := "" }

/-- Translation of `ocConn.Ping` (options.go): a span is started only when
the `Ping` option is enabled and either `AllowRoot` is set or the inbound
context carries a span; the parent is invoked only when it implements
`driver.Pinger`, and its error is returned as is. -/
def ocConnPing (o : TraceOptions) (hasPinger : Bool) (parentErr : Option GoError)
    (hasParentSpan : Bool) : PingOutcome :=
  let traced := o.Ping && (o.AllowRoot || hasParentSpan)
  let err := if hasPinger then parentErr else none
  { spanStarted := traced
  , spanStatus := if traced then some (pingSpanStatus err) else none
  , parentCalled := hasPinger
  , err := err }

/-- Translation of `ocConn.Exec` (options.go): requires the parent to
implement `driver.Execer` (otherwise `driver.ErrSkip`); without `AllowRoot`
the call is forwarded with no span and the parent result returned raw; with
`AllowRoot` a root span is opened, the status recorded, and a successful
result wrapped in `ocResult`. -/
def ocConnExec (o : TraceOptions) (hasExecer : Bool)
    (parentRes : Except GoError Unit) : OpOutcome :=
  if hasExecer then
    if !o.AllowRoot then
      match parentRes with
      | .ok _ => { spanStarted := false, spanStatus := none, ret := some .raw, err := none }
      | .error e => { spanStarted := false, spanStatus := none, ret := none, err := some e }
    else
      match parentRes with
      | .ok _ =>
        { spanStarted := true, spanStatus := some (setSpanStatus none)
        , ret := some .wrapped, err := none }
      | .error e =>
        { spanStarted := true, spanStatus := some (setSpanStatus (some e))
        , ret := none, err := some e }
  else
    { spanStarted := false, spanStatus := none, ret := none, err := some .driverErrSkip }

/-- Translation of `ocConn.ExecContext` (options.go): requires
`driver.ExecerContext` (otherwise `driver.ErrSkip`); with `AllowRoot` unset
and no parent span the call is forwarded unchanged with no span; otherwise a
span is opened, the status recorded, and a successful result wrapped. -/
def ocConnExecContext (o : TraceOptions) (hasExecerContext : Bool)
    (hasParentSpan : Bool) (parentRes : Except GoError Unit) : OpOutcome :=
  if hasExecerContext then
    if !o.AllowRoot && !hasParentSpan then
      match parentRes with
      | .ok _ => { spanStarted := false, spanStatus := none, ret := some .raw, err := none }
      | .error e => { spanStarted := false, spanStatus := none, ret := none, err := some e }
    else
      match parentRes with
      | .ok _ =>
        { spanStarted := true, spanStatus := some (setSpanStatus none)
        , ret := some .wrapped, err := none }
      | .error e =>
        { spanStarted := true, spanStatus := some (setSpanStatus (some e))
        , ret := none, err := some e }
  else
    { spanStarted := false, spanStatus := none, ret := none, err := some .driverErrSkip }

/-- Translation of `ocConn.Query` (options.go), same shape as `ocConn.Exec`
with `driver.Queryer` and `ocRows`. -/
def ocConnQuery (o : TraceOptions) (hasQueryer : Bool)
    (parentRes : Except GoError Unit) : OpOutcome :=
  if hasQueryer then
    if !o.AllowRoot then
      match parentRes with
      | .ok _ => { spanStarted := false, spanStatus := none, ret := some .raw, err := none }
      | .error e => { spanStarted := false, spanStatus := none, ret := none, err := some e }
    else
      match parentRes with
      | .ok _ =>
        { spanStarted := true, spanStatus := some (setSpanStatus none)
        , ret := some .wrapped, err := none }
      | .error e =>
        { spanStarted := true, spanStatus := some (setSpanStatus (some e))
        , ret := none, err := some e }
  else
    { spanStarted := false, spanStatus := none, ret := none, err := some .driverErrSkip }

/-- Translation of `ocConn.QueryContext` (options.go), same shape as
`ocConn.ExecContext` with `driver.QueryerContext` and `ocRows`. -/
def ocConnQueryContext (o : TraceOptions) (hasQueryerContext : Bool)
    (hasParentSpan : Bool) (parentRes : Except GoError Unit) : OpOutcome :=
  if hasQueryerContext then
    if !o.AllowRoot && !hasParentSpan then
      match parentRes with
      | .ok _ => { spanStarted := false, spanStatus := none, ret := some .raw, err := none }
      | .error e => { spanStarted := false, spanStatus := none, ret := none, err := some e }
    else
      match parentRes with
      | .ok _ =>
        { spanStarted := true, spanStatus := some (setSpanStatus none)
        , ret := some .wrapped, err := none }
      | .error e =>
        { spanStarted := true, spanStatus := some (setSpanStatus (some e))
        , ret := none, err := some e }
  else
    { spanStarted := false, spanStatus := none, ret := none, err := some .driverErrSkip }

/-- Outcome of a prepare call: the returned statement is the capability set
produced by `wrapStmt` on the parent statement probes. -/
structure PrepOutcome where
  spanStarted : Bool
  spanStatus : Option SpanStatus
  stmt : Option StmtCaps
  err : Option GoError
deriving DecidableEq, Repr

/-- Translation of `ocConn.Prepare` (options.go): a root span only when
`AllowRoot` is set; the parent error is propagated unchanged; a successful
statement is wrapped through `wrapStmt`.  The parent statement is given by
its two capability probes. -/
def ocConnPrepare (o : TraceOptions)
    (parentRes : Except GoError (Bool × Bool)) : PrepOutcome :=
  let traced := o.AllowRoot
  match parentRes with
  | .error e =>
    { spanStarted := traced
    , spanStatus := if traced then some (setSpanStatus (some e)) else none
    , stmt := none, err := some e }
  | .ok caps =>
    { spanStarted := traced
    , spanStatus := if traced then some (setSpanStatus none) else none
    , stmt := some (wrapStmt caps.1 caps.2), err := none }

/-- Translation of `ocConn.PrepareContext` (options.go): a span when
`AllowRoot` is set or a parent span is present; the parent is reached through
`ConnPrepareContext` when available and plain `Prepare` otherwise, which does
not change the outcome shape; a successful statement is wrapped through
`wrapStmt`. -/
def ocConnPrepareContext (o : TraceOptions) (_hasPrepCtx : Bool)
    (hasParentSpan : Bool) (parentRes : Except GoError (Bool × Bool)) : PrepOutcome :=
  let traced := o.AllowRoot || hasParentSpan
  match parentRes with
  | .error e =>
    { spanStarted := traced
    , spanStatus := if traced then some (setSpanStatus (some e)) else none
    , stmt := none, err := some e }
  | .ok caps =>
    { spanStarted := traced
    , spanStatus := if traced then some (setSpanStatus none) else none
    , stmt := some (wrapStmt caps.1 caps.2), err := none }

/-- Translation of `ocConn.BeginTx` (options.go): with `AllowRoot` unset and
no parent span, the call is forwarded unchanged (through `ConnBeginTx` when
available, plain `Begin` otherwise) and the parent transaction returned raw;
otherwise a begin span is opened and closed around the call and a successful
transaction is wrapped in `ocTx`. -/
def ocConnBeginTx (o : TraceOptions) (_hasConnBeginTx : Bool)
    (hasParentSpan : Bool) (parentRes : Except GoError Unit) : OpOutcome :=
  if !o.AllowRoot && !hasParentSpan then
    match parentRes with
    | .ok _ => { spanStarted := false, spanStatus := none, ret := some .raw, err := none }
    | .error e => { spanStarted := false, spanStatus := none, ret := none, err := some e }
  else
    match parentRes with
    | .ok _ =>
      { spanStarted := true, spanStatus := some (setSpanStatus none)
      , ret := some .wrapped, err := none }
    | .error e =>
      { spanStarted := true, spanStatus := some (setSpanStatus (some e))
      , ret := none, err := some e }

/-- Translation of `ocStmt.Exec` (options.go): without `AllowRoot` the call
is forwarded unchanged; otherwise a root span is opened and a successful
result wrapped. -/
def ocStmtExec (o : TraceOptions) (parentRes : Except GoError Unit) : OpOutcome :=
  if !o.AllowRoot then
    match parentRes with
    | .ok _ => { spanStarted := false, spanStatus := none, ret := some .raw, err := none }
    | .error e => { spanStarted := false, spanStatus := none, ret := none, err := some e }
  else
    match parentRes with
    | .ok _ =>
      { spanStarted := true, spanStatus := some (setSpanStatus none)
      , ret := some .wrapped, err := none }
    | .error e =>
      { spanStarted := true, spanStatus := some (setSpanStatus (some e))
      , ret := none, err := some e }

/-- Translation of `ocStmt.Query` (options.go), same shape as
`ocStmt.Exec`. -/
def ocStmtQuery (o : TraceOptions) (parentRes : Except GoError Unit) : OpOutcome :=
  if !o.AllowRoot then
    match parentRes with
    | .ok _ => { spanStarted := false, spanStatus := none, ret := some .raw, err := none }
    | .error e => { spanStarted := false, spanStatus := none, ret := none, err := some e }
  else
    match parentRes with
    | .ok _ =>
      { spanStarted := true, spanStatus := some (setSpanStatus none)
      , ret := some .wrapped, err := none }
    | .error e =>
      { spanStarted := true, spanStatus := some (setSpanStatus (some e))
      , ret := none, err := some e }

/-- Translation of `ocStmt.ExecContext` (options.go): reached only when the
parent implements `StmtExecContext`; with `AllowRoot` unset and no parent
span the call is forwarded unchanged; otherwise a span is opened and a
successful result wrapped. -/
def ocStmtExecContext (o : TraceOptions) (hasParentSpan : Bool)
    (parentRes : Except GoError Unit) : OpOutcome :=
  if !o.AllowRoot && !hasParentSpan then
    match parentRes with
    | .ok _ => { spanStarted := false, spanStatus := none, ret := some .raw, err := none }
    | .error e => { spanStarted := false, spanStatus := none, ret := none, err := some e }
  else
    match parentRes with
    | .ok _ =>
      { spanStarted := true, spanStatus := some (setSpanStatus none)
      , ret := some .wrapped, err := none }
    | .error e =>
      { spanStarted := true, spanStatus := some (setSpanStatus (some e))
      , ret := none, err := some e }

/-- Translation of `ocStmt.QueryContext` (options.go), same shape as
`ocStmt.ExecContext`. -/
def ocStmtQueryContext (o : TraceOptions) (hasParentSpan : Bool)
    (parentRes : Except GoError Unit) : OpOutcome :=
  if !o.AllowRoot && !hasParentSpan then
    match parentRes with
    | .ok _ => { spanStarted := false, spanStatus := none, ret := some .raw, err := none }
    | .error e => { spanStarted := false, spanStatus := none, ret := none, err := some e }
  else
    match parentRes with
    | .ok _ =>
      { spanStarted := true, spanStatus := some (setSpanStatus none)
      , ret := some .wrapped, err := none }
    | .error e =>
      { spanStarted := true, spanStatus := some (setSpanStatus (some e))
      , ret := none, err := some e }

/-- Translation of `ocRows.Next` (options.go): a span when the `RowsNext`
option is enabled; `io.EOF` is recorded as an OK status while any other error
goes through `setSpanStatus`; the parent error is returned unchanged in every
case. -/
def ocRowsNext (o : TraceOptions) (parentErr : Option GoError) : IterOutcome :=
  if o.RowsNext then
    { spanStarted := true
    , spanStatus :=
        some (if parentErr = some GoError.ioEOF then setSpanStatus none
              else setSpanStatus parentErr)
    , err := parentErr }
  else
    { spanStarted := false, spanStatus := none, err := parentErr }

/-- Translation of `ocRows.Close` (options.go): a span when the `RowsClose`
option is enabled; the parent error is returned unchanged. -/
def ocRowsClose (o : TraceOptions) (parentErr : Option GoError) : IterOutcome :=
  if o.RowsClose then
    { spanStarted := true, spanStatus := some (setSpanStatus parentErr), err := parentErr }
  else
    { spanStarted := false, spanStatus := none, err := parentErr }

/-- Translation of `ocResult.LastInsertId` (options.go): a span when the
`LastInsertID` option is enabled; the parent error is returned unchanged. -/
def ocResultLastInsertId (o : TraceOptions) (parentErr : Option GoError) : IterOutcome :=
  if o.LastInsertID then
    { spanStarted := true, spanStatus := some (setSpanStatus parentErr), err := parentErr }
  else
    { spanStarted := false, spanStatus := none, err := parentErr }

/-- Translation of `ocResult.RowsAffected` (options.go): a span when the
`RowsAffected` option is enabled; the parent error is returned unchanged. -/
def ocResultRowsAffected (o : TraceOptions) (parentErr : Option GoError) : IterOutcome :=
  if o.RowsAffected then
    { spanStarted := true, spanStatus := some (setSpanStatus parentErr), err := parentErr }
  else
    { spanStarted := false, spanStatus := none, err := parentErr }

/-- Translation of `ocTx.Commit` (options.go): an unconditional commit span
whose status records the parent error, which is returned unchanged. -/
def ocTxCommit (parentErr : Option GoError) : IterOutcome :=
  { spanStarted := true, spanStatus := some (setSpanStatus parentErr), err := parentErr }

/-- Translation of `ocTx.Rollback` (options.go): an unconditional rollback
span whose status records the parent error, which is returned unchanged. -/
def ocTxRollback (parentErr : Option GoError) : IterOutcome :=
  { spanStarted := true, spanStatus := some (setSpanStatus parentErr), err := parentErr }

/-! ## Legacy transaction tier (driver.go snapshot)

The `driver.go` snapshot carries the long-lived transaction span logic: its
`BeginTx` starts a `sql:transaction` span when the `Transaction` option is
enabled and stores the resulting context in the returned `ocTx`, and its
`Commit` and `Rollback` close that span when `t.options.Transaction` is set.
The `ocTx` composite literal `ocTx(parent, ctx)` omits the `options` field,
which therefore takes the Go zero value. -/

/-- State captured by the legacy `ocTx`: whether the stored context carries a
span (the long-lived transaction span or an inherited caller span), and the
options stored in the struct. -/
structure LegacyTxState where
  ctxHasSpan : Bool
  options : TraceOptions
deriving DecidableEq, Repr

/-- Whether the context stored into the legacy `ocTx` carries a span, per
`driver.go` `BeginTx`: when the `Transaction` option is enabled, `StartSpan`
rebinds the context so it always carries the new `sql:transaction` span;
otherwise the context is the inbound one (a nil or TODO context carries no
span). -/
def legacyBeginTxCtxHasSpan (o : TraceOptions) (ctxIsTodoOrNil callerCtxHasSpan : Bool) : Bool :=
  if o.Transaction then true
  else if ctxIsTodoOrNil then false
  else callerCtxHasSpan

/-- Translation of `ocConn.BeginTx` (driver.go): on parent success the
returned wrapper is `ocTx(parent, ctx)` - the `options` field is omitted from
the composite literal, so the stored options are the zero value regardless of
the options configured on the connection. -/
def legacyBeginTx (o : TraceOptions) (ctxIsTodoOrNil callerCtxHasSpan : Bool)
    (parentRes : Except GoError Unit) : Except GoError LegacyTxState :=
  match parentRes with
  | .error e => .error e
  | .ok _ =>
    .ok { ctxHasSpan := legacyBeginTxCtxHasSpan o ctxIsTodoOrNil callerCtxHasSpan
        , options := zeroTraceOptions }

/-- Outcome of a legacy `Commit` or `Rollback`: the short operation span is
always closed with a status; the long-lived transaction span is closed (with
its own status) only when the guarded defer fires. -/
structure LegacyTxOutcome where
  shortSpanClosed : Bool
  shortSpanStatus : SpanStatus
  txSpanClosed : Bool
  txSpanStatus : Option SpanStatus
  err : Option GoError
deriving DecidableEq, Repr

/-- Translation of `ocTx.Rollback` (driver.go): the short rollback span is
closed with `setSpanStatus` of the parent error; when `t.options.Transaction`
is set and the stored context carries a span, that span is closed with status
`Aborted` on a nil error and `setSpanStatus` of the error otherwise; the
parent error is returned unchanged. -/
def legacyRollback (t : LegacyTxState) (parentErr : Option GoError) : LegacyTxOutcome :=
  let closeTx := t.options.Transaction && t.ctxHasSpan
  { shortSpanClosed := true
  , shortSpanStatus := setSpanStatus parentErr
  , txSpanClosed := closeTx
  , txSpanStatus :=
      if closeTx then
        some (if parentErr = none then
                { code := .Aborted, message := "transaction rollback" }
              else setSpanStatus parentErr)
      else none
  , err := parentErr }

/-- Translation of `ocTx.Commit` (driver.go): the short commit span is closed
with `setSpanStatus` of the parent error; when `t.options.Transaction` is set
and the stored context carries a span, that span is closed after recording
`setSpanStatus` of the error; the parent error is returned unchanged. -/
def legacyCommit (t : LegacyTxState) (parentErr : Option GoError) : LegacyTxOutcome :=
  let closeTx := t.options.Transaction && t.ctxHasSpan
  { shortSpanClosed := true
  , shortSpanStatus := setSpanStatus parentErr
  , txSpanClosed := closeTx
  , txSpanStatus := if closeTx then some (setSpanStatus parentErr) else none
  , err := parentErr }

/-! ## Helper definitions for the theorems -/

/-- Outcome of an intercepted call that is forwarded to the parent with no
span: the parent object is returned raw on success and the parent error is
returned unchanged on failure. -/
def forwardedUnchanged (parentRes : Except GoError Unit) : OpOutcome :=
  match parentRes with
  | .ok _ => { spanStarted := false, spanStatus := none, ret := some .raw, err := none }
  | .error e => { spanStarted := false, spanStatus := none, ret := none, err := some e }

/-- Error component of a parent call result. -/
def exceptErr {α : Type} : Except GoError α → Option GoError
  | .error e => some e
  | .ok _ => none

/-- Trace options with only `AllowRoot` enabled: every category flag is
disabled. -/
def onlyAllowRootOptions : TraceOptions := { zeroTraceOptions with AllowRoot := true }

/-! ## Claims -/

/-- C1 (counterexample): the capability-preservation law fails at the
connection tier.  A parent connection implementing none of the optional
connection interfaces is wrapped by `ocConn`, whose method set satisfies
`Pinger`, `Execer`, `ExecerContext`, `Queryer`, `QueryerContext`,
`ConnPrepareContext` and `ConnBeginTx` unconditionally, so the wrapper
widens the capability set of this parent. -/
theorem c1_capability_preservation_counterexample :
    ¬ (ocConnCaps emptyConnCaps = emptyConnCaps) := by
  decide

/-- C1 (amended): capability preservation holds at the statement tier, where
`wrapStmt` selects at wrap time the composite whose optional-interface set is
exactly the probed set of the parent; at the connection tier the `ocConn`
wrapper satisfies all of the optional interfaces it declares methods for,
regardless of the parent, and never `SessionResetter`; at the rows tier the
`ocRows` wrapper satisfies none of the optional rows interfaces, regardless
of the parent. -/
theorem c1_capability_sets_per_tier :
    (∀ hasExeCtx hasQryCtx : Bool,
      wrapStmt hasExeCtx hasQryCtx =
        { stmtBase := true, stmtExecContext := hasExeCtx, stmtQueryContext := hasQryCtx })
  ∧ (∀ parent : ConnCaps, ocConnCaps parent =
      { pinger := true, execer := true, execerContext := true, queryer := true
      , queryerContext := true, connPrepareContext := true, connBeginTx := true
      , sessionResetter := false })
  ∧ (∀ parent : RowsCaps, ocRowsCaps parent =
      { columnTypeScanType := false, columnTypeDatabaseTypeName := false
      , nextResultSet := false }) := by
  refine ⟨?_, ?_, ?_⟩
  · intro he hq
    cases he <;> cases hq <;> rfl
  · intro parent
    rfl
  · intro parent
    rfl

/-- C2: wrapping a parent statement that implements neither context-aware
extension yields a wrapper satisfying only the base statement contract, and
wrapping one that implements both yields the base contract plus both
extensions. -/
theorem c2_wrapstmt_boundary_scenarios :
    wrapStmt false false =
      { stmtBase := true, stmtExecContext := false, stmtQueryContext := false }
  ∧ wrapStmt true true =
      { stmtBase := true, stmtExecContext := true, stmtQueryContext := true } :=
  ⟨rfl, rfl⟩

/-- C3: with `AllowRoot` disabled and no parent span in the inbound context,
no intercepted call starts a span, whatever the category flags: `Ping`
forwards to the parent and returns its error unchanged, and the exec, query,
begin and statement paths return the forwarding outcome (no span, raw object,
error unchanged); the prepare paths start no span and propagate the parent
error unchanged. -/
theorem c3_allowroot_false_no_parent_span (o : TraceOptions) (h : o.AllowRoot = false)
    (hasPinger hasPrepCtx hasBeginTx : Bool) (parentErr : Option GoError)
    (parentRes : Except GoError Unit) (parentPrep : Except GoError (Bool × Bool)) :
    (ocConnPing o hasPinger parentErr false).spanStarted = false
  ∧ (ocConnPing o hasPinger parentErr false).err = (if hasPinger then parentErr else none)
  ∧ ocConnExec o true parentRes = forwardedUnchanged parentRes
  ∧ ocConnExecContext o true false parentRes = forwardedUnchanged parentRes
  ∧ ocConnQuery o true parentRes = forwardedUnchanged parentRes
  ∧ ocConnQueryContext o true false parentRes = forwardedUnchanged parentRes
  ∧ (ocConnPrepare o parentPrep).spanStarted = false
  ∧ (ocConnPrepare o parentPrep).err = exceptErr parentPrep
  ∧ (ocConnPrepareContext o hasPrepCtx false parentPrep).spanStarted = false
  ∧ (ocConnPrepareContext o hasPrepCtx false parentPrep).err = exceptErr parentPrep
  ∧ ocConnBeginTx o hasBeginTx false parentRes = forwardedUnchanged parentRes
  ∧ ocStmtExec o parentRes = forwardedUnchanged parentRes
  ∧ ocStmtQuery o parentRes = forwardedUnchanged parentRes
  ∧ ocStmtExecContext o false parentRes = forwardedUnchanged parentRes
  ∧ ocStmtQueryContext o false parentRes = forwardedUnchanged parentRes := by
  cases parentRes <;> cases parentPrep <;>
    simp [ocConnPing, ocConnExec, ocConnExecContext, ocConnQuery, ocConnQueryContext,
      ocConnPrepare, ocConnPrepareContext, ocConnBeginTx, ocStmtExec, ocStmtQuery,
      ocStmtExecContext, ocStmtQueryContext, forwardedUnchanged, exceptErr, h]

/-- C3 (witness): concrete instantiation at the all-enabled options with
`AllowRoot` switched off: `ExecContext` on a successful parent call is
forwarded unchanged with no span. -/
theorem c3_allowroot_false_no_parent_span_witness :
    ocConnExecContext { TraceAll with AllowRoot := false } true false (Except.ok ()) =
      forwardedUnchanged (Except.ok ()) :=
  (c3_allowroot_false_no_parent_span { TraceAll with AllowRoot := false } rfl
    true true true none (Except.ok ()) (Except.ok (false, false))).2.2.2.1

/-- C4 (counterexample): the uniform category-flag gating fails for the
exec kind.  With every category flag disabled and only `AllowRoot` enabled,
`ocConn.ExecContext` still starts a span, because no category flag exists for
the exec, query, prepare and begin call kinds. -/
theorem c4_category_flag_counterexample :
    (ocConnExecContext onlyAllowRootOptions true false (Except.ok ())).spanStarted = true := by
  rfl

/-- C4 (amended): `Ping` is the call kind with a category flag and honours
it (flag disabled: no span, call forwarded and its error returned unchanged);
the exec, query, prepare and begin kinds have no category flag, and their
span decision is exactly the root-or-child policy `AllowRoot OR parent span
present` (the non-context variants see no parent span and reduce to
`AllowRoot`). -/
theorem c4_category_flag_gating (o : TraceOptions)
    (hasPinger hasPrepCtx hasBeginTx hasParentSpan : Bool)
    (parentErr : Option GoError) (parentRes : Except GoError Unit)
    (parentPrep : Except GoError (Bool × Bool)) :
    (ocConnPing { o with Ping := false } hasPinger parentErr hasParentSpan).spanStarted = false
  ∧ (ocConnPing { o with Ping := false } hasPinger parentErr hasParentSpan).err
      = (if hasPinger then parentErr else none)
  ∧ (ocConnExecContext o true hasParentSpan parentRes).spanStarted = (o.AllowRoot || hasParentSpan)
  ∧ (ocConnQueryContext o true hasParentSpan parentRes).spanStarted = (o.AllowRoot || hasParentSpan)
  ∧ (ocConnPrepareContext o hasPrepCtx hasParentSpan parentPrep).spanStarted
      = (o.AllowRoot || hasParentSpan)
  ∧ (ocConnBeginTx o hasBeginTx hasParentSpan parentRes).spanStarted = (o.AllowRoot || hasParentSpan)
  ∧ (ocConnExec o true parentRes).spanStarted = o.AllowRoot
  ∧ (ocConnQuery o true parentRes).spanStarted = o.AllowRoot
  ∧ (ocConnPrepare o parentPrep).spanStarted = o.AllowRoot := by
  cases parentRes <;> cases parentPrep <;> cases hasParentSpan <;> cases hA : o.AllowRoot <;>
    simp [ocConnPing, ocConnExecContext, ocConnQueryContext, ocConnPrepareContext,
      ocConnBeginTx, ocConnExec, ocConnQuery, ocConnPrepare, hA]

/-- C5: the status mapper is total by construction and maps each sentinel per
the fixed precedence: nil to OK, cancellation to Cancelled, deadline
exceeded to DeadlineExceeded, the no-rows sentinel to NotFound, the
transaction-finished and connection-closed sentinels to FailedPrecondition,
and any other non-nil error to Unknown with its message attached; during
`Rows.Next` iteration, `io.EOF` is recorded as an OK status while the error
itself is still returned to the caller. -/
theorem c5_status_mapper_precedence :
    setSpanStatus none = { code := .OK, message := "" }
  ∧ setSpanStatus (some .contextCanceled) = { code := .Cancelled, message := "context canceled" }
  ∧ setSpanStatus (some .contextDeadlineExceeded)
      = { code := .DeadlineExceeded, message := "context deadline exceeded" }
  ∧ setSpanStatus (some .sqlErrNoRows)
      = { code := .NotFound, message := "sql: no rows in result set" }
  ∧ setSpanStatus (some .sqlErrTxDone)
      = { code := .FailedPrecondition
        , message := "sql: transaction has already been committed or rolled back" }
  ∧ setSpanStatus (some .sqlErrConnDone)
      = { code := .FailedPrecondition, message := "sql: connection is already closed" }
  ∧ (∀ msg : String, setSpanStatus (some (.other msg)) = { code := .Unknown, message := msg })
  ∧ (∀ o : TraceOptions, (ocRowsNext o (some .ioEOF)).spanStatus
      = (if o.RowsNext then some { code := .OK, message := "" } else none))
  ∧ (∀ o : TraceOptions, (ocRowsNext o (some .ioEOF)).err = some .ioEOF) := by
  refine ⟨rfl, rfl, rfl, rfl, rfl, rfl, fun msg => rfl, ?_, ?_⟩
  · intro o
    cases hn : o.RowsNext <;> simp [ocRowsNext, hn, setSpanStatus]
  · intro o
    cases hn : o.RowsNext <;> simp [ocRowsNext, hn]

/-- C6: every parameter list yields exactly one attribute per parameter,
keyed by the name when present and by the ordinal position otherwise, with
value encoding by type: nil becomes an empty string, `int64` an integer
attribute, `float64` its fixed-format string, `bool` a boolean attribute, a
byte sequence a string of exactly its first 256 bytes when longer than 256
(unchanged otherwise), and any other value its default rendering truncated
the same way. -/
theorem c6_parameter_attribute_encoding (key : String) (i : Int) (b : Bool)
    (fs ss bs others : GoBytes) (args : List NamedValue) (nv : NamedValue)
    (hbs : 256 < bs.length) (hss : ¬ 256 < ss.length) (hothers : 256 < others.length) :
    (namedParamsAttr args).length = args.length
  ∧ (∀ vs : List Value, (paramsAttr vs).length = vs.length)
  ∧ (∀ v : Value, (argToAttr key v).key = key)
  ∧ namedParamsAttr [nv]
      = [argToAttr (if nv.Name ≠ "" then nv.Name else "sql.arg." ++ toString nv.Ordinal) nv.value]
  ∧ argToAttr key .null = { key := key, value := .strVal [] }
  ∧ argToAttr key (.int64 i) = { key := key, value := .intVal i }
  ∧ argToAttr key (.float64 fs) = { key := key, value := .strVal fs }
  ∧ argToAttr key (.boolean b) = { key := key, value := .boolVal b }
  ∧ argToAttr key (.bytes bs) = { key := key, value := .strVal (bs.take 256) }
  ∧ (bs.take 256).length = 256
  ∧ argToAttr key (.bytes ss) = { key := key, value := .strVal ss }
  ∧ argToAttr key (.other others) = { key := key, value := .strVal (others.take 256) }
  ∧ (others.take 256).length = 256 := by
  refine ⟨?_, ?_, ?_, rfl, rfl, rfl, rfl, rfl, ?_, ?_, ?_, ?_, ?_⟩
  · simp [namedParamsAttr]
  · intro vs
    simp [paramsAttr]
  · intro v
    cases v <;> simp [argToAttr]
  · simp [argToAttr, hbs]
  · simp [List.length_take]
    omega
  · simp [argToAttr, hss]
  · simp [argToAttr, hothers]
  · simp [List.length_take]
    omega

set_option maxRecDepth 4096 in
/-- C6 (witness): a 257-byte parameter is truncated to exactly its first 256
bytes. -/
theorem c6_parameter_attribute_encoding_witness :
    argToAttr "k" (.bytes (List.replicate 257 (0 : UInt8)))
      = { key := "k", value := .strVal ((List.replicate 257 (0 : UInt8)).take 256) }
  ∧ ((List.replicate 257 (0 : UInt8)).take 256).length = 256 := by
  have h := c6_parameter_attribute_encoding "k" 0 false [] [] (List.replicate 257 (0 : UInt8))
    (List.replicate 300 (7 : UInt8)) [] { Name := "", Ordinal := 1, value := .null }
    (by decide) (by decide) (by decide)
  exact ⟨h.2.2.2.2.2.2.2.2.1, h.2.2.2.2.2.2.2.2.2.1⟩

/-- C7: at every modelled tier, the error returned by the underlying driver
is returned to the caller unchanged; status recording is computed from the
error and does not alter the returned value (`io.EOF` from `Rows.Next` is a
particular case, recorded as OK yet still returned). -/
theorem c7_errors_propagated_unchanged (o : TraceOptions) (e : GoError)
    (hasPrepCtx hasBeginTx hasParentSpan : Bool) :
    (ocConnPing o true (some e) hasParentSpan).err = some e
  ∧ (ocConnExec o true (.error e)).err = some e
  ∧ (ocConnExecContext o true hasParentSpan (.error e)).err = some e
  ∧ (ocConnQuery o true (.error e)).err = some e
  ∧ (ocConnQueryContext o true hasParentSpan (.error e)).err = some e
  ∧ (ocConnPrepare o (.error e)).err = some e
  ∧ (ocConnPrepareContext o hasPrepCtx hasParentSpan (.error e)).err = some e
  ∧ (ocConnBeginTx o hasBeginTx hasParentSpan (.error e)).err = some e
  ∧ (ocStmtExec o (.error e)).err = some e
  ∧ (ocStmtQuery o (.error e)).err = some e
  ∧ (ocStmtExecContext o hasParentSpan (.error e)).err = some e
  ∧ (ocStmtQueryContext o hasParentSpan (.error e)).err = some e
  ∧ (ocRowsNext o (some e)).err = some e
  ∧ (ocRowsClose o (some e)).err = some e
  ∧ (ocResultLastInsertId o (some e)).err = some e
  ∧ (ocResultRowsAffected o (some e)).err = some e
  ∧ (ocTxCommit (some e)).err = some e
  ∧ (ocTxRollback (some e)).err = some e := by
  refine ⟨rfl, ?_, ?_, ?_, ?_, rfl, rfl, ?_, ?_, ?_, ?_, ?_, ?_, ?_, ?_, ?_, rfl, rfl⟩ <;>
    · simp only [ocConnExec, ocConnExecContext, ocConnQuery, ocConnQueryContext,
        ocConnBeginTx, ocStmtExec, ocStmtQuery, ocStmtExecContext, ocStmtQueryContext,
        ocRowsNext, ocRowsClose, ocResultLastInsertId, ocResultRowsAffected]
      repeat' split
      all_goals simp_all

/-- C8: with the transaction category flag enabled, `BeginTx` (driver.go)
starts the long-lived transaction span and stores its context in the returned
wrapper, but the `ocTx` composite literal omits the `options` field, so the
wrapper holds the zero options; `Rollback` therefore never fires the guarded
defer - the long-lived span is neither closed nor marked `Aborted`, even
though the underlying `Rollback` returned no error, while the short rollback
span closes normally with an OK status. -/
theorem c8_rollback_never_closes_transaction_span :
    legacyBeginTx TraceAll false true (Except.ok ())
      = Except.ok { ctxHasSpan := true, options := zeroTraceOptions }
  ∧ (legacyRollback { ctxHasSpan := true, options := zeroTraceOptions } none).txSpanClosed = false
  ∧ (legacyRollback { ctxHasSpan := true, options := zeroTraceOptions } none).txSpanStatus = none
  ∧ (legacyRollback { ctxHasSpan := true, options := zeroTraceOptions } none).shortSpanClosed = true
  ∧ (legacyRollback { ctxHasSpan := true, options := zeroTraceOptions } none).shortSpanStatus
      = { code := .OK, message := "" }
  ∧ (legacyRollback { ctxHasSpan := true, options := zeroTraceOptions } none).err = none
  ∧ (legacyCommit { ctxHasSpan := true, options := zeroTraceOptions } none).txSpanClosed = false := by
  refine ⟨rfl, rfl, rfl, rfl, rfl, rfl, rfl⟩

/-- C9: whatever list of trace options is passed to `Wrap`, the effective
options stored in the wrapped driver never have `QueryParams` enabled while
`Query` is disabled - the normalisation step forces `QueryParams` off in that
case, and every decorator receives these effective options verbatim. -/
theorem c9_queryparams_forced_off (options : List TraceOption) :
    ((Wrap options).options.QueryParams && !(Wrap options).options.Query) = false := by
  unfold Wrap
  cases h : ((options.foldl (fun acc option => option acc) zeroTraceOptions).QueryParams
      && !(options.foldl (fun acc option => option acc) zeroTraceOptions).Query) <;>
    simp [h]

/-- C10: when the parent connection does not implement `driver.Pinger`, the
wrapped `Ping` returns nil without invoking any parent operation, and when
Ping tracing applies the span is still opened and closed with an OK
status. -/
theorem c10_ping_without_pinger (o : TraceOptions) (hasParentSpan : Bool)
    (parentErr : Option GoError) :
    (ocConnPing o false parentErr hasParentSpan).err = none
  ∧ (ocConnPing o false parentErr hasParentSpan).parentCalled = false
  ∧ (ocConnPing o false parentErr hasParentSpan).spanStatus
      = (if (ocConnPing o false parentErr hasParentSpan).spanStarted then
          some { code := StatusCode.OK, message := "" } else none) := by
  refine ⟨rfl, rfl, rfl⟩
